import Mathlib

/-!
Verification of the lifecycle core of `electron_api_service_worker_main.cc`
(`electron::api::ServiceWorkerMain`).

The embedding models one `ServiceWorkerMain` proxy as a structure `Proxy`
holding the member fields of the C++ class, together with a `Glob` record for
the ambient state its methods touch: the host `ServiceWorkerContext` (read-only
within a call), the process-wide version-id registry (`GetVersionIdMap`), the
trace of calls issued to the host, the settled promises, and a log of the
side-effecting calls `Destroy` issues.

C++ null-pointer dereferences (e.g. `version_info()->scope` when
`version_info_` is null) are modelled by `Option`-returning operations where
`none` means the operation faults; every other outcome is an explicit value.
-/

namespace SWMain

/-- A GURL is modelled by its spec string; `GURL::EmptyGURL()` is the empty
string. -/
abbrev GURL := String

def emptyGURL : GURL := ""

/-- The slice of `content::ServiceWorkerVersionBaseInfo` this layer reads:
the scope URL. -/
structure VersionInfo where
  scope : GURL
deriving DecidableEq, Repr

/-- `ServiceWorkerKey`: (version id, storage partition). The partition pointer
is modelled as an opaque numeric identifier; two keys are equal iff both
components are equal. -/
structure ServiceWorkerKey where
  version_id : Nat
  partition : Nat
deriving DecidableEq, Repr

/-- `blink::StorageKey::CreateFirstParty(url::Origin::Create(scope))` — the
storage key is modelled up to the origin computation, which is injective in
the data this layer passes through it. -/
structure StorageKey where
  origin_scope : GURL
deriving DecidableEq, Repr

def StorageKey.createFirstParty (scope : GURL) : StorageKey :=
  ⟨scope⟩

/-- A live `content::ServiceWorkerVersion` entry as seen through the private
`GetLiveVersion` API: its redundancy flag and its base info. -/
structure VersionRecord where
  redundant : Bool
  info : VersionInfo
deriving DecidableEq, Repr

/-- The host `content::ServiceWorkerContext` collaborator, read-only during a
single proxy method call. -/
structure Ctx where
  live : List (Nat × VersionRecord)
  runningIds : List Nat
  startingIds : List Nat
  externalCounts : List (StorageKey × Nat)
deriving DecidableEq, Repr

/-- `GetLiveVersion(context, version_id)` (returns a version while starting,
stopping, or stopped). -/
def Ctx.getLiveVersion (c : Ctx) (version_id : Nat) : Option VersionRecord :=
  c.live.lookup version_id

/-- `GetLiveVersionInfo(context, version_id)`: `version->GetInfo()` when a
live version exists, otherwise `std::nullopt`. -/
def Ctx.getLiveVersionInfo (c : Ctx) (version_id : Nat) : Option VersionInfo :=
  (c.getLiveVersion version_id).map (·.info)

/-- `IsLiveRunningServiceWorker(version_id)`. -/
def Ctx.isLiveRunning (c : Ctx) (version_id : Nat) : Bool :=
  c.runningIds.contains version_id

/-- `IsLiveStartingServiceWorker(version_id)`. -/
def Ctx.isLiveStarting (c : Ctx) (version_id : Nat) : Bool :=
  c.startingIds.contains version_id

/-- `CountExternalRequestsForTest(storage_key)`. -/
def Ctx.countExternalRequests (c : Ctx) (sk : StorageKey) : Nat :=
  (c.externalCounts.lookup sk).getD 0

/-- Calls this layer issues to its collaborators (host context and the
renderer-side mojo remote). -/
inductive HostCall where
  | startWorkerForScope (scope : GURL) (storage_key : StorageKey)
  | stopAllForStorageKey (storage_key : StorageKey)
  | startingExternalRequest (version_id : Nat) (has_timeout : Bool) (uuid : String)
  | finishedExternalRequest (version_id : Nat) (uuid : String)
  | getRemoteInterface (version_id : Nat)
  | message (internal : Bool) (channel : String) (payload : String)
deriving DecidableEq, Repr

/-- Internal side-effecting calls `Destroy` / `InvalidateVersionInfo` issue
(metadata reset, registry erase, unpin), recorded so that statements about
"side effects run once" can be made at the call level. -/
inductive Effect where
  | clearVersionInfo
  | registryErase (key : ServiceWorkerKey)
  | unpin
deriving DecidableEq, Repr

/-- Outcome recorded for a settled `gin_helper::Promise`. -/
inductive PromiseOutcome where
  | resolvedOk
  | rejected (msg : String)
deriving DecidableEq, Repr

/-- The member fields of `ServiceWorkerMain`. `start_worker_promise_` is
modelled by the identifier of the pending promise; `remote_` by whether the
mojo remote is bound. -/
structure Proxy where
  version_id : Nat
  key : ServiceWorkerKey
  version_destroyed : Bool
  version_info : Option VersionInfo
  remote_bound : Bool
  start_worker_promise : Option Nat
  pinned : Bool
deriving DecidableEq, Repr

/-- Ambient state read and written by a proxy's methods: the host context, the
`GetVersionIdMap()` registry (the set of keys currently mapped), the trace of
collaborator calls, settled promises, the next fresh promise id, and the
`Effect` log. -/
structure Glob where
  ctx : Ctx
  registry : List ServiceWorkerKey
  trace : List HostCall
  settled : List (Nat × PromiseOutcome)
  nextPromise : Nat
  effects : List Effect
deriving DecidableEq, Repr

/-- `ServiceWorkerMain::Destroy`:
`version_destroyed_ = true; InvalidateVersionInfo(); GetVersionIdMap().erase(key_); Unpin();`
`InvalidateVersionInfo` is inlined: it resets `version_info_` when non-null
and then returns early because `version_destroyed_` is already set.
`GetVersionIdMap().erase` removes the (unique) entry for the key, modelled as
a filter since the `unordered_map` holds at most one entry per key. `Unpin` is
not defined under src/ — modelled from the spec: release the GC pin. The
registry-erase and unpin calls are unconditional in the source and are logged
as effects; the metadata reset is logged only when it actually resets. -/
def Destroy (p : Proxy) (g : Glob) : Proxy × Glob :=
  let e1 : List Effect :=
    if p.version_info.isSome then [Effect.clearVersionInfo] else []
  let p1 : Proxy :=
    { p with version_destroyed := true, version_info := none, pinned := false }
  let g1 : Glob :=
    { g with
        registry := g.registry.filter (fun k => k != p.key)
        effects := g.effects ++ e1 ++ [Effect.registryErase p.key, Effect.unpin] }
  (p1, g1)

/-- `ServiceWorkerMain::InvalidateVersionInfo`: reset the cached snapshot,
return early when destroyed, otherwise re-pull `GetLiveVersionInfo` and either
refresh the snapshot or self-destroy. -/
def InvalidateVersionInfo (p : Proxy) (g : Glob) : Proxy × Glob :=
  let e1 : List Effect :=
    if p.version_info.isSome then [Effect.clearVersionInfo] else []
  let p0 : Proxy := { p with version_info := none }
  let g0 : Glob := { g with effects := g.effects ++ e1 }
  if p0.version_destroyed then (p0, g0)
  else
    match g0.ctx.getLiveVersionInfo p0.version_id with
    | some info => ({ p0 with version_info := some info }, g0)
    | none => Destroy p0 g0

/-- `ServiceWorkerMain::IsDestroyed`. -/
def IsDestroyed (p : Proxy) : Bool :=
  p.version_destroyed

/-- `ServiceWorkerMain::VersionID`. -/
def VersionID (p : Proxy) : Nat :=
  p.version_id

/-- `ServiceWorkerMain::ScopeURL`: empty URL when destroyed, otherwise
`version_info()->scope` — a null dereference (`none`) when the snapshot is
absent. -/
def ScopeURL (p : Proxy) : Option GURL :=
  if p.version_destroyed then some emptyGURL
  else p.version_info.map (·.scope)

/-- `ServiceWorkerMain::GetStorageKey`: `version_info()->scope` dereferences
the cached snapshot — `none` models the null dereference when it is absent. -/
def GetStorageKey (p : Proxy) : Option StorageKey :=
  p.version_info.map (fun vi => StorageKey.createFirstParty vi.scope)

/-- `ServiceWorkerMain::GetRendererApi`: when the remote is unbound, return
null unless the worker is live-running, else bind it via
`GetRemoteAssociatedInterfaces`. Returns the (possibly re-bound) proxy and
whether a usable remote was obtained. -/
def GetRendererApi (p : Proxy) (g : Glob) : Proxy × Glob × Bool :=
  if p.remote_bound then (p, g, true)
  else if g.ctx.isLiveRunning p.version_id then
    ({ p with remote_bound := true },
     { g with trace := g.trace ++ [HostCall.getRemoteInterface p.version_id] },
     true)
  else (p, g, false)

/-- Result of `ServiceWorkerMain::Send` as observed by script. -/
inductive SendOutcome where
  | threwSerializationError
  | returned
deriving DecidableEq, Repr

/-- `ServiceWorkerMain::Send`. The v8 argument is modelled as
`Option String`: `some payload` when `gin::ConvertFromV8` can serialize it,
`none` when it cannot. Serialization failure throws; an unobtainable renderer
remote returns silently; otherwise the message is forwarded to the remote. -/
def Send (p : Proxy) (g : Glob) (internal : Bool) (channel : String)
    (args : Option String) : Proxy × Glob × SendOutcome :=
  match args with
  | none => (p, g, SendOutcome.threwSerializationError)
  | some payload =>
    let r := GetRendererApi p g
    if r.2.2 then
      (r.1, { r.2.1 with trace := r.2.1.trace ++ [HostCall.message internal channel payload] },
       SendOutcome.returned)
    else (r.1, r.2.1, SendOutcome.returned)

/-- `ServiceWorkerMain::OnRunningStatusChanged`: re-pull metadata, then drop
the remote when it is bound but the worker is neither starting nor running. -/
def OnRunningStatusChanged (p : Proxy) (g : Glob) : Proxy × Glob :=
  let r := InvalidateVersionInfo p g
  if r.1.remote_bound && !(r.2.ctx.isLiveStarting r.1.version_id)
      && !(r.2.ctx.isLiveRunning r.1.version_id) then
    ({ r.1 with remote_bound := false }, r.2)
  else r

/-- `ServiceWorkerMain::OnVersionRedundant`: unconditionally destroy. -/
def OnVersionRedundant (p : Proxy) (g : Glob) : Proxy × Glob :=
  Destroy p g

/-- `ServiceWorkerMain::StartWorker`: destroyed → fresh immediately-rejected
promise, no host call; pending promise → return it unchanged; otherwise create
the promise, issue `StartWorkerForScope(ScopeURL(), GetStorageKey(), ...)` —
both dereference `version_info_`, so `none` models the fault when the snapshot
is absent — and store the pending promise. Returns the promise id handed to
the caller. -/
def StartWorker (p : Proxy) (g : Glob) : Option (Proxy × Glob × Nat) :=
  if p.version_destroyed then
    let pid := g.nextPromise
    some (p,
      { g with
          nextPromise := pid + 1
          settled := g.settled ++ [(pid, PromiseOutcome.rejected "ServiceWorkerMain is destroyed")] },
      pid)
  else
    match p.start_worker_promise with
    | some pid => some (p, g, pid)
    | none =>
      match p.version_info with
      | none => none
      | some vi =>
        let pid := g.nextPromise
        some ({ p with start_worker_promise := some pid },
          { g with
              nextPromise := pid + 1
              trace := g.trace ++
                [HostCall.startWorkerForScope vi.scope (StorageKey.createFirstParty vi.scope)] },
          pid)

/-- `ServiceWorkerMain::DidStartWorkerForScope` (the success callback; the
version/process/thread ids it receives are unused): resolve the pending
promise and clear the slot. Dereferences `start_worker_promise_`, so `none`
models the fault when no promise is pending. -/
def DidStartWorkerForScope (p : Proxy) (g : Glob)
    (version_id process_id thread_id : Nat) : Option (Proxy × Glob) :=
  p.start_worker_promise.map (fun pid =>
    ({ p with start_worker_promise := none },
     { g with settled := g.settled ++ [(pid, PromiseOutcome.resolvedOk)] }))

/-- `ServiceWorkerMain::DidStartWorkerFail` (the failure callback; the
status code is discarded): reject the pending promise with a generic message
and clear the slot. -/
def DidStartWorkerFail (p : Proxy) (g : Glob)
    (status_code : Nat) : Option (Proxy × Glob) :=
  p.start_worker_promise.map (fun pid =>
    ({ p with start_worker_promise := none },
     { g with settled := g.settled ++ [(pid, PromiseOutcome.rejected "Failed to start service worker.")] }))

/-- `ServiceWorkerMain::StopWorker`:
`StopAllServiceWorkersForStorageKey(GetStorageKey())` — no destroyed check;
`none` models the null dereference of `version_info_` inside `GetStorageKey`
when the snapshot is absent. -/
def StopWorker (p : Proxy) (g : Glob) : Option Glob :=
  (GetStorageKey p).map (fun sk =>
    { g with trace := g.trace ++ [HostCall.stopAllForStorageKey sk] })

/-- `ServiceWorkerMain::CountExternalRequests`:
`CountExternalRequestsForTest(GetStorageKey())` — no destroyed check; `none`
models the null dereference inside `GetStorageKey`. -/
def CountExternalRequests (p : Proxy) (g : Glob) : Option (Glob × Nat) :=
  (GetStorageKey p).map (fun sk =>
    (g, g.ctx.countExternalRequests sk))

/-- A lowercase hexadecimal digit. -/
def isLowerHexDigit (c : Char) : Bool :=
  (Char.ofNat 48 ≤ c && c ≤ Char.ofNat 57) || (Char.ofNat 97 ≤ c && c ≤ Char.ofNat 102)

/-- Position/character test for the canonical 8-4-4-4-12 UUID layout:
hyphens at indices 8, 13, 18, 23, lowercase hex digits elsewhere. -/
def uuidCharOk (i : Nat) (c : Char) : Bool :=
  if i = 8 || i = 13 || i = 18 || i = 23 then c = Char.ofNat 45
  else isLowerHexDigit c

/-- `base::Uuid::ParseLowercase(s).is_valid()`: `s` is a 36-character
canonical lowercase UUID string. -/
def parseLowercaseValid (s : String) : Bool :=
  s.data.length = 36 && (s.data.enum.all (fun ic => uuidCharOk ic.1 ic.2))

/-- Result of `ServiceWorkerMain::StartExternalRequest` as observed by
script. -/
inductive StartExternalOutcome where
  | threwDestroyed
  | returnedDetails (id : String) (ok : Bool)
deriving DecidableEq, Repr

/-- Whether the host accepted `StartingExternalRequest` — modelled from the
spec: the host may reject the registration (e.g. the worker already stopped),
surfaced only as the `ok` boolean. Modelled as acceptance per version id. -/
def Ctx.externalRequestOk (c : Ctx) (version_id : Nat) : Bool :=
  c.runningIds.contains version_id

/-- `ServiceWorkerMain::StartExternalRequest`: destroyed → throw; otherwise
generate a random v4 UUID (modelled as the `request_uuid` parameter), ask the
host to register it with the chosen timeout type, and return
`{id, ok}`. -/
def StartExternalRequest (p : Proxy) (g : Glob) (has_timeout : Bool)
    (request_uuid : String) : Glob × StartExternalOutcome :=
  if p.version_destroyed then (g, StartExternalOutcome.threwDestroyed)
  else
    ({ g with trace := g.trace ++
        [HostCall.startingExternalRequest p.version_id has_timeout request_uuid] },
     StartExternalOutcome.returnedDetails request_uuid (g.ctx.externalRequestOk p.version_id))

/-- Result of `ServiceWorkerMain::FinishExternalRequest` as observed by
script. -/
inductive FinishOutcome where
  | threwDestroyed
  | threwInvalidToken
  | completed
deriving DecidableEq, Repr

/-- `ServiceWorkerMain::FinishExternalRequest`: destroyed check first, then
the lowercase-UUID parse check, then `FinishedExternalRequest` on the host. -/
def FinishExternalRequest (p : Proxy) (g : Glob) (uuid : String) :
    Glob × FinishOutcome :=
  if p.version_destroyed then (g, FinishOutcome.threwDestroyed)
  else if !(parseLowercaseValid uuid) then (g, FinishOutcome.threwInvalidToken)
  else
    ({ g with trace := g.trace ++ [HostCall.finishedExternalRequest p.version_id uuid] },
     FinishOutcome.completed)

/-- Insert into `GetVersionIdMap()` via `emplace`: inserts only when the key
is not already present. -/
def registryEmplace (key : ServiceWorkerKey) (registry : List ServiceWorkerKey) :
    List ServiceWorkerKey :=
  if registry.contains key then registry else key :: registry

/-- The `ServiceWorkerMain` constructor: store the ids, `emplace` into the
version-id map, then `InvalidateVersionInfo()` (which populates the snapshot
or self-destroys when the host cannot resolve the version). -/
def constructProxy (sw_version_id : Nat) (key : ServiceWorkerKey) (g : Glob) :
    Proxy × Glob :=
  let p0 : Proxy :=
    { version_id := sw_version_id, key := key, version_destroyed := false,
      version_info := none, remote_bound := false, start_worker_promise := none,
      pinned := false }
  let g0 : Glob := { g with registry := registryEmplace key g.registry }
  InvalidateVersionInfo p0 g0

/-- Pin — not defined under src/. Modelled from the spec: take a strong
self-reference preventing script-side garbage collection. -/
def Pin (p : Proxy) : Proxy :=
  { p with pinned := true }

/-- States of one proxy reachable by the public operations and host
callbacks after its constructor returns. Each step lets the ambient state
(`Glob`, and with it the host context) be arbitrary, since the host mutates
between calls; faulting (`none`) operations yield no successor state.
`StopWorker` and `CountExternalRequests` never modify the proxy and need no
step. -/
inductive Reach : Proxy → Prop where
  | construct (sw_version_id : Nat) (key : ServiceWorkerKey) (g : Glob) :
      Reach (constructProxy sw_version_id key g).1
  | send (p : Proxy) (g : Glob) (internal : Bool) (channel : String)
      (args : Option String) : Reach p → Reach (Send p g internal channel args).1
  | startWorker (p p' : Proxy) (g g' : Glob) (pid : Nat) : Reach p →
      StartWorker p g = some (p', g', pid) → Reach p'
  | didStartWorkerForScope (p p' : Proxy) (g g' : Glob) (v pr t : Nat) : Reach p →
      DidStartWorkerForScope p g v pr t = some (p', g') → Reach p'
  | didStartWorkerFail (p p' : Proxy) (g g' : Glob) (sc : Nat) : Reach p →
      DidStartWorkerFail p g sc = some (p', g') → Reach p'
  | onRunningStatusChanged (p : Proxy) (g : Glob) : Reach p →
      Reach (OnRunningStatusChanged p g).1
  | onVersionRedundant (p : Proxy) (g : Glob) : Reach p →
      Reach (OnVersionRedundant p g).1
  | destroy (p : Proxy) (g : Glob) : Reach p → Reach (Destroy p g).1

/-- Process-wide state for the static lookup `ServiceWorkerMain::From`: the
host context, `GetVersionIdMap()` as a key → proxy-id map, the heap of proxy
objects allocated by `new ServiceWorkerMain`, and the next fresh proxy id. -/
structure World where
  ctx : Ctx
  registry : List (ServiceWorkerKey × Nat)
  proxies : List (Nat × Proxy)
  nextProxy : Nat
deriving DecidableEq, Repr

/-- `ServiceWorkerMain::From(isolate, sw_context, storage_partition,
version_id)`: return the registered proxy when the key is mapped; otherwise
return an empty handle unless a live, non-redundant version exists; otherwise
`new ServiceWorkerMain(...)` (emplace into the map, then
`InvalidateVersionInfo`, which here always resolves the snapshot since the
live version was just checked — the self-destroy branch is kept for
faithfulness) and `Pin` the fresh handle. Returns the updated world and the
id of the returned proxy, `none` for the empty handle. -/
def FromSW (w : World) (storage_partition : Nat) (sw_version_id : Nat) :
    World × Option Nat :=
  let key : ServiceWorkerKey := ⟨sw_version_id, storage_partition⟩
  match w.registry.lookup key with
  | some pid => (w, some pid)
  | none =>
    match w.ctx.getLiveVersion sw_version_id with
    | none => (w, none)
    | some rec =>
      if rec.redundant then (w, none)
      else
        let pid := w.nextProxy
        let p0 : Proxy :=
          { version_id := sw_version_id, key := key, version_destroyed := false,
            version_info := none, remote_bound := false,
            start_worker_promise := none, pinned := false }
        let reg1 :=
          if (w.registry.lookup key).isSome then w.registry
          else (key, pid) :: w.registry
        let p1 :=
          match w.ctx.getLiveVersionInfo sw_version_id with
          | some info => { p0 with version_info := some info }
          | none => { p0 with version_destroyed := true, pinned := false }
        let reg2 :=
          match w.ctx.getLiveVersionInfo sw_version_id with
          | some _ => reg1
          | none => reg1.filter (fun e => e.1 != key)
        let p2 := Pin p1
        ({ w with registry := reg2, proxies := (pid, p2) :: w.proxies,
                  nextProxy := pid + 1 },
         some pid)

/-! Concrete fixtures used by witnesses: a host with one live, non-redundant,
running worker (version 7), an empty host, and states derived from them. -/

def demoInfo : VersionInfo := ⟨"https://example.com/"⟩

def ctxLive : Ctx :=
  { live := [(7, ⟨false, demoInfo⟩)], runningIds := [7], startingIds := [],
    externalCounts := [] }

def ctxEmpty : Ctx :=
  { live := [], runningIds := [], startingIds := [], externalCounts := [] }

def key7 : ServiceWorkerKey := ⟨7, 1⟩

def globLive : Glob :=
  { ctx := ctxLive, registry := [], trace := [], settled := [], nextPromise := 0,
    effects := [] }

def globGone : Glob :=
  { ctx := ctxEmpty, registry := [], trace := [], settled := [], nextPromise := 0,
    effects := [] }

/-- A freshly constructed, live proxy for version 7 (metadata resolved,
not destroyed, unbound remote, no pending start). -/
def proxyLive : Proxy := (constructProxy 7 key7 globLive).1

/-- The ambient state right after `proxyLive`'s construction. -/
def globAfterConstruct : Glob := (constructProxy 7 key7 globLive).2

/-- A reachable destroyed proxy: `proxyLive` after an explicit `Destroy`. -/
def proxyDestroyed : Proxy := (Destroy proxyLive globAfterConstruct).1

def globAfterDestroy : Glob := (Destroy proxyLive globAfterConstruct).2

/-! ### Shared helper lemmas -/

/-- `Destroy` always leaves the proxy destroyed with a cleared snapshot. -/
theorem destroy_establishes_inv (p : Proxy) (g : Glob) :
    (Destroy p g).1.version_info.isSome = !(Destroy p g).1.version_destroyed := by
  simp [Destroy]

/-- `InvalidateVersionInfo` always re-establishes "snapshot present iff not
destroyed": it refreshes the snapshot or self-destroys. -/
theorem invalidate_establishes_inv (p : Proxy) (g : Glob) :
    (InvalidateVersionInfo p g).1.version_info.isSome
      = !(InvalidateVersionInfo p g).1.version_destroyed := by
  unfold InvalidateVersionInfo
  by_cases hs : p.version_info.isSome = true <;>
    by_cases hd : p.version_destroyed = true <;>
      cases hinfo : g.ctx.getLiveVersionInfo p.version_id <;>
        simp [hs, hd, hinfo, Destroy]

/-- `GetRendererApi` only re-binds the remote: destroyed flag and snapshot
are untouched. -/
theorem getRendererApi_version_fields (p : Proxy) (g : Glob) :
    (GetRendererApi p g).1.version_info = p.version_info ∧
    (GetRendererApi p g).1.version_destroyed = p.version_destroyed := by
  unfold GetRendererApi
  by_cases hr : p.remote_bound = true <;>
    by_cases hl : g.ctx.isLiveRunning p.version_id = true <;> simp [hr, hl]

/-- The proxy returned by `Send` is the proxy as left by `GetRendererApi`. -/
theorem send_fst (p : Proxy) (g : Glob) (internal : Bool) (channel : String)
    (args : Option String) :
    (Send p g internal channel args).1 =
      match args with
      | none => p
      | some _ => (GetRendererApi p g).1 := by
  cases args with
  | none => rfl
  | some payload =>
      simp only [Send]
      split <;> rfl

/-- Every proxy state reachable after construction satisfies "snapshot present
iff not destroyed". -/
theorem reach_inv (p : Proxy) (h : Reach p) :
    p.version_info.isSome = !p.version_destroyed := by
  induction h with
  | construct sw_version_id key g =>
      exact invalidate_establishes_inv _ _
  | send p g internal channel args hR ih =>
      rw [send_fst]
      cases args with
      | none => exact ih
      | some payload =>
          obtain ⟨ha, hb⟩ := getRendererApi_version_fields p g
          simp only [ha, hb]
          exact ih
  | startWorker p p' g g' pid hR heq ih =>
      unfold StartWorker at heq
      split at heq
      · simp only [Option.some.injEq, Prod.mk.injEq] at heq
        obtain ⟨h1, _, _⟩ := heq
        subst h1
        exact ih
      · split at heq
        · simp only [Option.some.injEq, Prod.mk.injEq] at heq
          obtain ⟨h1, _, _⟩ := heq
          subst h1
          exact ih
        · split at heq
          · simp at heq
          · simp only [Option.some.injEq, Prod.mk.injEq] at heq
            obtain ⟨h1, _, _⟩ := heq
            subst h1
            simpa using ih
  | didStartWorkerForScope p p' g g' v pr t hR heq ih =>
      unfold DidStartWorkerForScope at heq
      cases hpr : p.start_worker_promise with
      | none => rw [hpr] at heq; simp at heq
      | some pid =>
          rw [hpr] at heq
          simp only [Option.map_some', Option.some.injEq, Prod.mk.injEq] at heq
          obtain ⟨h1, _⟩ := heq
          subst h1
          simpa using ih
  | didStartWorkerFail p p' g g' sc hR heq ih =>
      unfold DidStartWorkerFail at heq
      cases hpr : p.start_worker_promise with
      | none => rw [hpr] at heq; simp at heq
      | some pid =>
          rw [hpr] at heq
          simp only [Option.map_some', Option.some.injEq, Prod.mk.injEq] at heq
          obtain ⟨h1, _⟩ := heq
          subst h1
          simpa using ih
  | onRunningStatusChanged p g hR ih =>
      simp only [OnRunningStatusChanged]
      split
      · simpa using invalidate_establishes_inv p g
      · exact invalidate_establishes_inv p g
  | onVersionRedundant p g hR ih =>
      exact destroy_establishes_inv _ _
  | destroy p g hR ih =>
      exact destroy_establishes_inv _ _

/-- On a reachable destroyed proxy the cached snapshot is absent. -/
theorem reach_destroyed_info_none (p : Proxy) (h : Reach p)
    (hd : p.version_destroyed = true) : p.version_info = none := by
  have hinv := reach_inv p h
  rw [hd] at hinv
  simpa using hinv

/-- A key never survives the registry filter that erases it. -/
theorem not_mem_filter_ne (k : ServiceWorkerKey) (l : List ServiceWorkerKey) :
    k ∉ List.filter (fun x => x != k) l := by
  simp [List.mem_filter]

/-- Field-level facts about `Destroy`: flag set, snapshot cleared, key erased
from the registry. -/
theorem destroy_facts (p : Proxy) (g : Glob) :
    (Destroy p g).1.version_destroyed = true ∧
    (Destroy p g).1.version_info = none ∧
    p.key ∉ (Destroy p g).2.registry := by
  refine ⟨rfl, rfl, ?_⟩
  simp [Destroy, List.mem_filter]

/-- `OnRunningStatusChanged` only touches `remote_bound` beyond what
`InvalidateVersionInfo` does. -/
theorem onRunningStatus_fields (p : Proxy) (g : Glob) :
    (OnRunningStatusChanged p g).1.version_destroyed
        = (InvalidateVersionInfo p g).1.version_destroyed ∧
    (OnRunningStatusChanged p g).1.version_info
        = (InvalidateVersionInfo p g).1.version_info ∧
    (OnRunningStatusChanged p g).2 = (InvalidateVersionInfo p g).2 := by
  simp only [OnRunningStatusChanged]
  split <;> simp

/-- When the proxy is live but the host can no longer resolve the version,
`InvalidateVersionInfo` destroys: flag set, snapshot gone, key erased. -/
theorem invalidate_destroy_case (p : Proxy) (g : Glob)
    (hd : p.version_destroyed = false)
    (hn : g.ctx.getLiveVersionInfo p.version_id = none) :
    (InvalidateVersionInfo p g).1.version_destroyed = true ∧
    (InvalidateVersionInfo p g).1.version_info = none ∧
    p.key ∉ (InvalidateVersionInfo p g).2.registry := by
  by_cases hs : p.version_info.isSome = true <;>
    simp [InvalidateVersionInfo, hs, hd, hn, Destroy, List.mem_filter]

/-! ### Claim theorems -/

/-- C1: the claim says every public operation checks the destroyed flag at its
top and is never fatal; in the code `StopWorker` and `CountExternalRequests`
have no such check and call `GetStorageKey`, which dereferences the cleared
`version_info_` — on every reachable destroyed proxy both operations fault
(`none`), contradicting the claim. -/
theorem stopWorker_count_fault_when_destroyed (p : Proxy) (g : Glob)
    (h : Reach p) (hd : p.version_destroyed = true) :
    StopWorker p g = none ∧ CountExternalRequests p g = none := by
  have hnone := reach_destroyed_info_none p h hd
  simp [StopWorker, CountExternalRequests, GetStorageKey, hnone]

/-- C1 witness: a concrete proxy constructed against a live worker and then
destroyed faults in both `StopWorker` and `CountExternalRequests`. -/
theorem stopWorker_count_fault_when_destroyed_witness :
    StopWorker proxyDestroyed globAfterDestroy = none ∧
    CountExternalRequests proxyDestroyed globAfterDestroy = none :=
  stopWorker_count_fault_when_destroyed proxyDestroyed globAfterDestroy
    (Reach.destroy proxyLive globAfterConstruct (Reach.construct 7 key7 globLive))
    (by decide)

/-- C2 counterexample: `Destroy` has no re-entry guard — a second call on an
already-destroyed proxy re-issues the registry-erase and unpin calls, so the
side-effect log grows; "a second call performs no further side effects" is
false as stated. -/
theorem destroy_second_call_reruns_effects_counterexample :
    (Destroy proxyDestroyed globAfterDestroy).2.effects ≠ globAfterDestroy.effects := by
  decide

/-- C2 (amended): `destroy()` sets the destroyed flag, and although it has no
re-entry guard, each of its side effects is individually idempotent, so a
second call leaves the proxy and all observable ambient state (registry,
host-call trace, settled promises, promise counter, host context)
unchanged. -/
theorem destroy_idempotent_state (p : Proxy) (g : Glob) :
    IsDestroyed (Destroy p g).1 = true ∧
    (Destroy (Destroy p g).1 (Destroy p g).2).1 = (Destroy p g).1 ∧
    (Destroy (Destroy p g).1 (Destroy p g).2).2.registry = (Destroy p g).2.registry ∧
    (Destroy (Destroy p g).1 (Destroy p g).2).2.trace = (Destroy p g).2.trace ∧
    (Destroy (Destroy p g).1 (Destroy p g).2).2.settled = (Destroy p g).2.settled ∧
    (Destroy (Destroy p g).1 (Destroy p g).2).2.nextPromise = (Destroy p g).2.nextPromise ∧
    (Destroy (Destroy p g).1 (Destroy p g).2).2.ctx = (Destroy p g).2.ctx := by
  refine ⟨rfl, ?_, ?_, rfl, rfl, rfl, rfl⟩
  · simp [Destroy]
  · simp [Destroy, List.filter_filter]

/-- C3: on a live proxy with no start in flight, a first `StartWorker` issues
exactly one host start request and stores a pending promise; a second call
before resolution returns the very same promise and leaves all state (in
particular the host-call trace) unchanged, and the single host outcome
settles that one shared promise for both callers (success resolves it,
failure rejects it). -/
theorem startWorker_coalesces (p : Proxy) (g : Glob) (vi : VersionInfo)
    (hd : p.version_destroyed = false) (hpend : p.start_worker_promise = none)
    (hinfo : p.version_info = some vi) :
    ∃ p1 g1 f,
      StartWorker p g = some (p1, g1, f) ∧
      StartWorker p1 g1 = some (p1, g1, f) ∧
      g1.trace = g.trace ++
        [HostCall.startWorkerForScope vi.scope (StorageKey.createFirstParty vi.scope)] ∧
      (∀ v pr t, DidStartWorkerForScope p1 g1 v pr t =
        some ({ p1 with start_worker_promise := none },
              { g1 with settled := g1.settled ++ [(f, PromiseOutcome.resolvedOk)] })) ∧
      (∀ sc, DidStartWorkerFail p1 g1 sc =
        some ({ p1 with start_worker_promise := none },
              { g1 with settled := g1.settled ++
                  [(f, PromiseOutcome.rejected "Failed to start service worker.")] })) := by
  refine ⟨{ p with start_worker_promise := some g.nextPromise },
    { g with nextPromise := g.nextPromise + 1,
             trace := g.trace ++
               [HostCall.startWorkerForScope vi.scope (StorageKey.createFirstParty vi.scope)] },
    g.nextPromise, ?_, ?_, rfl, ?_, ?_⟩
  · simp [StartWorker, hd, hpend, hinfo]
  · simp [StartWorker, hd]
  · intro v pr t
    simp [DidStartWorkerForScope]
  · intro sc
    simp [DidStartWorkerFail]

/-- C3 witness: the coalescing behaviour evaluated on the concrete live
proxy. -/
theorem startWorker_coalesces_witness :
    ∃ p1 g1 f,
      StartWorker proxyLive globAfterConstruct = some (p1, g1, f) ∧
      StartWorker p1 g1 = some (p1, g1, f) ∧
      g1.trace = globAfterConstruct.trace ++
        [HostCall.startWorkerForScope demoInfo.scope
          (StorageKey.createFirstParty demoInfo.scope)] ∧
      (∀ v pr t, DidStartWorkerForScope p1 g1 v pr t =
        some ({ p1 with start_worker_promise := none },
              { g1 with settled := g1.settled ++ [(f, PromiseOutcome.resolvedOk)] })) ∧
      (∀ sc, DidStartWorkerFail p1 g1 sc =
        some ({ p1 with start_worker_promise := none },
              { g1 with settled := g1.settled ++
                  [(f, PromiseOutcome.rejected "Failed to start service worker.")] })) :=
  startWorker_coalesces proxyLive globAfterConstruct demoInfo
    (by decide) (by decide) (by decide)

/-- First step of the C4 scenario: a send on the live running worker lazily
binds the messaging channel. -/
def sendBindStep : Proxy × Glob × SendOutcome :=
  Send proxyLive globAfterConstruct false "test-channel" (some "hello")

/-- Second step of the C4 scenario: the host then reports the version
redundant; the proxy destroys itself but `Destroy` leaves the bound channel
in place. -/
def redundantStep : Proxy × Glob :=
  OnVersionRedundant sendBindStep.1 sendBindStep.2.1

/-- C4 counterexample: a destroyed proxy whose channel is still bound (bind,
then redundancy notification — `Destroy` never resets `remote_`) is reachable,
and `Send` on it forwards the message to the channel instead of being a
silent no-op: the claim's "without delivering the message" is false. -/
theorem send_on_destroyed_delivers_counterexample :
    IsDestroyed redundantStep.1 = true ∧
    redundantStep.1.remote_bound = true ∧
    (Send redundantStep.1 redundantStep.2 false "test-channel" (some "bye")).2.1.trace ≠
      redundantStep.2.trace ∧
    (Send redundantStep.1 redundantStep.2 false "test-channel" (some "bye")).2.1.trace =
      redundantStep.2.trace ++ [HostCall.message false "test-channel" "bye"] := by
  refine ⟨by decide, by decide, ?_, by decide⟩
  decide

/-- C4 (amended): `Send` consults only the bound-channel state and the host's
live-running bit, never the destroyed flag; for every proxy whose channel is
unbound and whose worker the host does not report live-running (in particular
a destroyed proxy once its channel is gone), a serializable send is a silent
no-op: it returns without throwing, binds no channel, and delivers nothing. -/
theorem send_noop_when_unbound_not_running (p : Proxy) (g : Glob)
    (internal : Bool) (channel payload : String)
    (hb : p.remote_bound = false)
    (hr : g.ctx.isLiveRunning p.version_id = false) :
    Send p g internal channel (some payload) = (p, g, SendOutcome.returned) := by
  simp [Send, GetRendererApi, hb, hr]

/-- C4 witness: the destroyed concrete proxy (channel unbound) with the
worker gone from the host: send is a silent no-op. -/
theorem send_noop_when_unbound_not_running_witness :
    Send proxyDestroyed globGone false "test-channel" (some "hello") =
      (proxyDestroyed, globGone, SendOutcome.returned) :=
  send_noop_when_unbound_not_running proxyDestroyed globGone false "test-channel"
    "hello" (by decide) (by decide)

/-- C5: `StartWorker` on a destroyed proxy returns a fresh promise that is
already rejected with the destroyed error; the returned ambient state shows
the host-call trace untouched — the host's start API is never invoked. -/
theorem startWorker_destroyed_rejects (p : Proxy) (g : Glob)
    (hd : p.version_destroyed = true) :
    StartWorker p g = some (p,
      { g with nextPromise := g.nextPromise + 1,
               settled := g.settled ++
                 [(g.nextPromise, PromiseOutcome.rejected "ServiceWorkerMain is destroyed")] },
      g.nextPromise) := by
  simp [StartWorker, hd]

/-- C5 witness: evaluated on the concrete destroyed proxy. -/
theorem startWorker_destroyed_rejects_witness :
    StartWorker proxyDestroyed globAfterDestroy = some (proxyDestroyed,
      { globAfterDestroy with
          nextPromise := globAfterDestroy.nextPromise + 1,
          settled := globAfterDestroy.settled ++
            [(globAfterDestroy.nextPromise,
              PromiseOutcome.rejected "ServiceWorkerMain is destroyed")] },
      globAfterDestroy.nextPromise) :=
  startWorker_destroyed_rejects proxyDestroyed globAfterDestroy (by decide)

/-- C6: `FromSW` is idempotent while no destroy intervenes — whenever it
returns a proxy, an immediately repeated call with the same identity returns
the same proxy id — and when the key is unmapped and the host reports no
live version or only a redundant one, it returns the empty handle and leaves
the world (in particular the proxy heap) untouched. -/
theorem from_idempotent_and_no_create (w : World)
    (storage_partition sw_version_id : Nat) :
    (∀ pid, (FromSW w storage_partition sw_version_id).2 = some pid →
      (FromSW (FromSW w storage_partition sw_version_id).1
        storage_partition sw_version_id).2 = some pid) ∧
    (w.registry.lookup ⟨sw_version_id, storage_partition⟩ = none →
     (w.ctx.getLiveVersion sw_version_id).all (fun r => r.redundant) = true →
     FromSW w storage_partition sw_version_id = (w, none)) := by
  constructor
  · intro pid hpid
    cases hl : w.registry.lookup (⟨sw_version_id, storage_partition⟩ : ServiceWorkerKey) with
    | some pid0 =>
        simp only [FromSW, hl] at hpid ⊢
        exact hpid
    | none =>
        cases hv : w.ctx.getLiveVersion sw_version_id with
        | none => simp [FromSW, hl, hv] at hpid
        | some rec =>
            by_cases hred : rec.redundant = true
            · simp [FromSW, hl, hv, hred] at hpid
            · simp only [FromSW, hl, hv, hred, Bool.false_eq_true, if_false,
                Option.isSome_none, Ctx.getLiveVersionInfo, Option.map_some',
                Option.some.injEq] at hpid ⊢
              simp [List.lookup, hpid]
  · intro hl hred
    cases hv : w.ctx.getLiveVersion sw_version_id with
    | none => simp [FromSW, hl, hv]
    | some rec =>
        rw [hv] at hred
        simp only [Option.all_some] at hred
        simp [FromSW, hl, hv, hred]

/-- C6 witness: against a host with a live non-redundant worker the second
lookup returns the proxy created by the first; against a host with only a
redundant worker no proxy is created. -/
theorem from_idempotent_and_no_create_witness :
    (FromSW (FromSW ⟨ctxLive, [], [], 0⟩ 1 7).1 1 7).2 = some 0 ∧
    FromSW ⟨⟨[(7, ⟨true, demoInfo⟩)], [], [], []⟩, [], [], 0⟩ 1 7 =
      (⟨⟨[(7, ⟨true, demoInfo⟩)], [], [], []⟩, [], [], 0⟩, none) :=
  ⟨(from_idempotent_and_no_create ⟨ctxLive, [], [], 0⟩ 1 7).1 0 (by decide),
   (from_idempotent_and_no_create ⟨⟨[(7, ⟨true, demoInfo⟩)], [], [], []⟩, [], [], 0⟩ 1 7).2
     (by decide) (by decide)⟩

/-- C7: after destruction via either path — the host's redundancy
notification, or a running-status change whose metadata re-pull fails — the
registry no longer contains the proxy's identity key, `IsDestroyed` reports
true, and the scope property is the empty URL. -/
theorem destroy_paths_clear_registry_and_scope (p : Proxy) (g : Glob) :
    (IsDestroyed (OnVersionRedundant p g).1 = true ∧
     ScopeURL (OnVersionRedundant p g).1 = some emptyGURL ∧
     p.key ∉ (OnVersionRedundant p g).2.registry) ∧
    (p.version_destroyed = false →
     g.ctx.getLiveVersionInfo p.version_id = none →
     IsDestroyed (OnRunningStatusChanged p g).1 = true ∧
     ScopeURL (OnRunningStatusChanged p g).1 = some emptyGURL ∧
     p.key ∉ (OnRunningStatusChanged p g).2.registry) := by
  constructor
  · obtain ⟨h1, h2, h3⟩ := destroy_facts p g
    exact ⟨h1, by simp [OnVersionRedundant, ScopeURL, h1], h3⟩
  · intro hd hn
    obtain ⟨f1, f2, f3⟩ := onRunningStatus_fields p g
    obtain ⟨i1, i2, i3⟩ := invalidate_destroy_case p g hd hn
    refine ⟨?_, ?_, ?_⟩
    · simp [IsDestroyed, f1, i1]
    · simp [ScopeURL, f1, i1]
    · rw [f3]
      exact i3

/-- C7 witness: the running-status path evaluated on the concrete live proxy
after the host loses the version. -/
theorem destroy_paths_clear_registry_and_scope_witness :
    IsDestroyed (OnRunningStatusChanged proxyLive globGone).1 = true ∧
    ScopeURL (OnRunningStatusChanged proxyLive globGone).1 = some emptyGURL ∧
    proxyLive.key ∉ (OnRunningStatusChanged proxyLive globGone).2.registry :=
  (destroy_paths_clear_registry_and_scope proxyLive globGone).2 (by decide) (by decide)

/-- C8: `FinishExternalRequest` rejects with the destroyed error first — for
every token, valid or not — and on a live proxy rejects every token that is
not a canonical lowercase UUID; in both cases the returned ambient state is
untouched, so the host is never contacted. -/
theorem finishExternalRequest_guards (p : Proxy) (g : Glob) (uuid : String) :
    (p.version_destroyed = true →
      FinishExternalRequest p g uuid = (g, FinishOutcome.threwDestroyed)) ∧
    (p.version_destroyed = false → parseLowercaseValid uuid = false →
      FinishExternalRequest p g uuid = (g, FinishOutcome.threwInvalidToken)) := by
  constructor
  · intro hd
    simp [FinishExternalRequest, hd]
  · intro hd hu
    simp [FinishExternalRequest, hd, hu]

/-- C8 witness: a valid lowercase UUID on the destroyed proxy still fails
with the destroyed error; a malformed token on the live proxy fails with the
invalid-token error; the UUID used really is canonical lowercase. -/
theorem finishExternalRequest_guards_witness :
    FinishExternalRequest proxyDestroyed globAfterDestroy
        "123e4567-e89b-12d3-a456-426614174000" =
      (globAfterDestroy, FinishOutcome.threwDestroyed) ∧
    FinishExternalRequest proxyLive globAfterConstruct "not-a-uuid" =
      (globAfterConstruct, FinishOutcome.threwInvalidToken) ∧
    parseLowercaseValid "123e4567-e89b-12d3-a456-426614174000" = true :=
  ⟨(finishExternalRequest_guards proxyDestroyed globAfterDestroy
      "123e4567-e89b-12d3-a456-426614174000").1 (by decide),
   (finishExternalRequest_guards proxyLive globAfterConstruct "not-a-uuid").2
      (by decide) (by decide),
   by decide⟩

/-- C9: in every proxy state reachable once the constructor has returned, the
cached metadata snapshot is present if and only if the proxy is not
destroyed — a failed re-pull immediately destroys, so no live proxy ever
lacks metadata. -/
theorem metadata_present_iff_alive (p : Proxy) (h : Reach p) :
    p.version_info.isSome = true ↔ p.version_destroyed = false := by
  have hinv := reach_inv p h
  rw [hinv]
  cases hb : p.version_destroyed <;> simp

/-- C9 witness: the invariant evaluated on the freshly constructed proxy. -/
theorem metadata_present_iff_alive_witness :
    proxyLive.version_info.isSome = true ↔ proxyLive.version_destroyed = false :=
  metadata_present_iff_alive proxyLive (Reach.construct 7 key7 globLive)

/-- C10: the serialization check in `Send` comes before the destroyed and
liveness checks — an unserializable payload throws the serialization error on
every proxy, destroyed or not, running or not, with no other effect. -/
theorem send_unserializable_throws (p : Proxy) (g : Glob) (internal : Bool)
    (channel : String) :
    Send p g internal channel none = (p, g, SendOutcome.threwSerializationError) :=
  rfl

end SWMain
